import Mathlib

/-!
# ForkFlix multimodal extraction pipeline — verification development

Shallow embedding of the progressive multi-modal recipe-extraction pipeline of
the ForkFlix backend:

* `app/services/multimodal_ai_service.py` (`MultiModalAIService.extract_progressive`
  and its text-extraction helpers),
* `app/services/ai_fusion_service.py` (`AIFusionService.fuse_multimodal_data_with_ai`
  and its fallbacks),
* `app/services/audio_processor.py` (`ProductionAudioProcessor`, in particular
  `_calculate_comprehensive_confidence`),
* `app/services/video_processor.py` (`VideoProcessor.process_instagram_video_for_recipe`),
* `app/services/mistral_service.py` (`MistralService.extract_structured_recipe`),
* `app/api/v1/multimodal_extraction.py` (the stream/batch consumption modes).

Modelling conventions:

* Python floats are modelled as `ℚ`; the constants appearing in the source are
  exact decimals, and no settled claim depends on binary floating-point rounding.
* Python strings are Lean `String`s; `in`-substring tests are `strContains`,
  `str.lower()` is `strToLower`, `len` is `String.length`.
* Every external call (HTTP model inference, download, transcription) is
  represented by an outcome recorded in a "world" structure: a `Bool` that says
  whether the surrounding `try:` body succeeded, plus the value produced on
  success.  Each service catches its own exceptions and returns an explicit
  fallback value, exactly as the Python `except:` blocks do, so every modelled
  service is a total function of its world.
* Fields of the Python result dictionaries that no downstream code inspected by
  a settled claim reads (e.g. `tags`, `dietaryInfo`, `extractedFields`, OCR
  payloads, frame analyses) are omitted from the Lean structures; a comment at
  each structure records the omission.
-/

/-- Substring test on character lists: some suffix of `s` has `pat` as a
prefix.  This is Python's `pat in s` for strings. -/
def listContainsSub (pat : List Char) : List Char → Bool
  | [] => pat.isEmpty
  | c :: rest => pat.isPrefixOf (c :: rest) || listContainsSub pat rest

/-- Python's `pat in s` substring containment. -/
def strContains (s pat : String) : Bool :=
  listContainsSub pat.data s.data

/-- Numeric value of a list of decimal digit characters. -/
def natOfDigits (ds : List Char) : ℕ :=
  ds.foldl (fun acc c => 10 * acc + (c.toNat - '0'.toNat)) 0

/-- Python `\s` whitespace class (the characters `re` treats as whitespace in
ASCII text). -/
def isSpaceChar (c : Char) : Bool :=
  c = ' ' || c = '\t' || c = '\n' || c = '\r' || c = '\x0b' || c = '\x0c'

/-- Python's `str.lower()` (character-wise lowering). -/
def strToLower (s : String) : String := String.mk (s.data.map Char.toLower)

/-- Python's `str.strip()`: drop leading and trailing whitespace. -/
def strTrim (s : String) : String :=
  String.mk (((s.data.dropWhile isSpaceChar).reverse.dropWhile isSpaceChar).reverse)

/-- Python's `sep.join(parts)`. -/
def strJoin (sep : String) : List String → String
  | [] => ""
  | x :: xs => xs.foldl (fun acc y => acc ++ sep ++ y) x

/-- Helper of `strWords`: split a character list into maximal non-whitespace
runs. -/
def wordsAux : List Char → List Char → List (List Char)
  | [], acc => if acc.isEmpty then [] else [acc.reverse]
  | c :: cs, acc =>
    if isSpaceChar c then
      if acc.isEmpty then wordsAux cs [] else acc.reverse :: wordsAux cs []
    else wordsAux cs (c :: acc)

/-- Python's `str.split()` with no argument: whitespace-separated words,
empty strings dropped. -/
def strWords (s : String) : List String := (wordsAux s.data []).map String.mk

/-- Attempt to match the regex `(\d+)\s*(U1|U2|...)` at the head of `cs`,
returning the numeric value of the digit group.  `unitPrefixes` is the set of
prefixes accepted for the unit alternation (e.g. `["min"]` covers
`minutes?|mins?`, since every alternative begins with `min`). -/
def matchNumberUnitAt (unitPrefixes : List String) (cs : List Char) : Option ℕ :=
  let ds := cs.takeWhile Char.isDigit
  if ds.isEmpty then none
  else
    let rest := (cs.drop ds.length).dropWhile isSpaceChar
    if unitPrefixes.any (fun u => u.data.isPrefixOf rest) then some (natOfDigits ds)
    else none

/-- `re.findall`-style scan: the value of the first position at which
`(\d+)\s*(unit...)` matches. -/
def findNumberUnit (unitPrefixes : List String) : List Char → Option ℕ
  | [] => none
  | c :: rest =>
    match matchNumberUnitAt unitPrefixes (c :: rest) with
    | some v => some v
    | none => findNumberUnit unitPrefixes rest

/-! ## TextExtractor (`multimodal_ai_service.py`) -/

/-- The ingredient vocabulary of `_extract_ingredients_fallback`, flattened in
the dictionary's insertion order (proteins, vegetables, grains, herbs_spices,
fats, dairy, pantry). -/
def ingredient_keywords : List String :=
  ["chicken", "beef", "pork", "fish", "salmon", "tuna", "shrimp", "tofu", "eggs", "cheese",
   "onion", "garlic", "tomato", "carrot", "celery", "bell pepper", "spinach", "broccoli",
   "zucchini", "mushroom",
   "rice", "pasta", "quinoa", "flour", "bread", "oats", "barley",
   "basil", "oregano", "thyme", "parsley", "cilantro", "rosemary", "salt", "pepper",
   "paprika", "cumin",
   "olive oil", "butter", "coconut oil", "avocado",
   "milk", "cream", "yogurt", "mozzarella", "parmesan", "ricotta",
   "sugar", "honey", "soy sauce", "vinegar", "lemon", "lime"]

/-- `_extract_ingredients_fallback`: scan the lowercased text for vocabulary
words, de-duplicated in first-found order, capped at 12.
(`_extract_ingredients_advanced` funnels into this same function: its AI branch
calls `_parse_ingredients_from_generation`, which returns
`_extract_ingredients_fallback(context_text)` unconditionally, and its fallback
and exception branches call it directly.) -/
def extract_ingredients_fallback (text : String) : List String :=
  let tl := strToLower text
  (ingredient_keywords.foldl
    (fun found ing =>
      if strContains tl ing && !found.contains ing then found ++ [ing] else found)
    []).take 12

/-- Cooking indicator words of `_calculate_text_confidence`. -/
def cooking_words : List String :=
  ["recipe", "cook", "bake", "fry", "grill", "roast", "simmer", "boil"]

/-- `_calculate_text_confidence`: base 0.5, +0.1 for text length over 100 and
another +0.1 over 300, +0.1 for at least 3 ingredients and +0.1 for at least 6,
then averaged with the category-classification confidence, then +0.1 when a
cooking indicator word occurs, capped at 0.9. -/
def calculate_text_confidence (text : String) (ingredients : List String)
    (category_confidence : ℚ) : ℚ :=
  let score : ℚ := 1/2
  let score := if text.length > 100 then score + 1/10 else score
  let score := if text.length > 300 then score + 1/10 else score
  let score := if ingredients.length ≥ 3 then score + 1/10 else score
  let score := if ingredients.length ≥ 6 then score + 1/10 else score
  let score := (score + category_confidence) / 2
  let score :=
    if cooking_words.any (fun w => strContains (strToLower text) w) then score + 1/10 else score
  min score (9/10)

/-- `_estimate_cooking_time_from_complexity`: base 25 minutes adjusted by the
complexity indicator table, clamped to [5, 240]. -/
def estimate_cooking_time_from_complexity (text : String) : ℕ :=
  let indicators : List (String × ℤ) :=
    [("quick", -10), ("fast", -10), ("instant", -15),
     ("slow", 30), ("simmer", 20), ("braise", 45), ("roast", 60),
     ("marinade", 15), ("chill", 10), ("rest", 5)]
  let tl := strToLower text
  let base : ℤ :=
    indicators.foldl (fun acc p => if strContains tl p.1 then acc + p.2 else acc) 25
  (max (min base 240) 5).toNat

/-- `_extract_cooking_time_advanced`: the first `(\d+)\s*(minutes?|mins?)`
match wins (capped at 240, with no lower clamp), else the first
`(\d+)\s*(hours?|hrs?)` match converted to minutes (capped at 240), else the
complexity-based estimate.  The remaining three patterns of the Python list
(`N - M minutes`, `cook for N minutes`, `bake for N minutes`) are dead: any
text they match also matches the first pattern, which is tried first. -/
def extract_cooking_time_advanced (text : String) : ℕ :=
  let tl := (strToLower text).data
  match findNumberUnit ["min"] tl with
  | some v => min v 240
  | none =>
    match findNumberUnit ["hour", "hr"] tl with
    | some v => min (v * 60) 240
    | none => estimate_cooking_time_from_complexity text

/-- Advanced technique keywords of `_determine_difficulty_advanced`. -/
def advanced_techniques : List String :=
  ["tempering", "emulsify", "clarify", "reduction", "confit",
   "sous vide", "ferment", "cure", "smoke", "braise"]

/-- `_determine_difficulty_advanced`: a score from ingredient count, cooking
time, technique keywords and equipment keywords, mapped to Easy/Medium/Hard. -/
def determine_difficulty_advanced (ingredients : List String) (cooking_time : ℕ)
    (text : String) : String :=
  let s1 : ℕ :=
    if ingredients.length > 12 then 3
    else if ingredients.length > 8 then 2
    else if ingredients.length > 5 then 1 else 0
  let s2 : ℕ :=
    if cooking_time > 120 then 3
    else if cooking_time > 60 then 2
    else if cooking_time > 30 then 1 else 0
  let tl := strToLower text
  let s3 : ℕ :=
    advanced_techniques.foldl (fun acc t => if strContains tl t then acc + 2 else acc) 0
  let s4 : ℕ :=
    if ["stand mixer", "food processor", "mandoline"].any (fun e => strContains tl e)
    then 1 else 0
  let score := s1 + s2 + s3 + s4
  if score ≥ 6 then "Hard" else if score ≥ 3 then "Medium" else "Easy"

/-- Candidate labels of `_categorize_recipe_advanced`'s zero-shot call. -/
def categories7 : List String :=
  ["Main Course", "Desserts", "Starters", "Beverages", "Snacks", "Breakfast", "Salads"]

/-- Phase-1 text result: the fields of the dictionary returned by
`_extract_from_text_enhanced` that downstream code settled by a claim reads
(`dietaryInfo`, `tags` and `extractedFields` are never read by the fusion,
refinement or delivery paths and are omitted). -/
structure TextResult where
  sourceText : String
  ingredients : List String
  category : Option String
  instructions : String
  cookingTime : Option ℕ
  difficulty : Option String
  confidence : ℚ
  deriving DecidableEq, Repr

/-- External-call outcomes of one run of `_extract_from_text_enhanced`. -/
structure TextWorld where
  /-- Whether the body of the outer `try:` runs to completion; `false` is the
  total catastrophic failure that returns empty fields with confidence 0. -/
  inner : Bool
  /-- Outcome of the zero-shot classification call in
  `_categorize_recipe_advanced`: `some (i, s)` is a 200 response whose top
  label is `categories7[i]` with score `s`; `none` is any non-200 response or
  exception, which yields the default ("Main Course", 0.5).  (The zero-shot
  API returns a permutation of the candidate labels, so the top label is one
  of the candidates.) -/
  catOutcome : Option (Fin 7 × ℚ)
  /-- Abstracts `_extract_cooking_instructions_advanced`, whose output string
  no settled claim inspects. -/
  instructions : String
  deriving DecidableEq, Repr

/-- `_extract_from_text_enhanced`.  The five gathered sub-tasks each catch
their own exceptions (so the `isinstance(..., Exception)` defaults at the
gather site are dead code); ingredient extraction, cooking time, difficulty
and confidence are pure functions of the combined text. -/
def extract_from_text_enhanced (description caption : String) (w : TextWorld) :
    TextResult :=
  if w.inner then
    let combined := strTrim (description ++ " " ++ caption)
    let ingredients := extract_ingredients_fallback combined
    let cat : String × ℚ :=
      match w.catOutcome with
      | some (i, s) => (categories7.get (i.cast rfl), s)
      | none => ("Main Course", 1/2)
    let cookingTime := extract_cooking_time_advanced combined
    { sourceText := combined
      ingredients := ingredients
      category := some cat.1
      instructions := w.instructions
      cookingTime := some cookingTime
      difficulty := some (determine_difficulty_advanced ingredients cookingTime combined)
      confidence := calculate_text_confidence combined ingredients cat.2 }
  else
    -- the catastrophic `except` branch: empty fields, confidence 0.0.  Its
    -- dictionary has no `source_text` key, so downstream `.get("source_text",
    -- "")` reads the empty string, modelled by storing "".
    { sourceText := ""
      ingredients := []
      category := none
      instructions := ""
      cookingTime := none
      difficulty := none
      confidence := 0 }

/-! ## AudioExtractor confidence (`audio_processor.py`) -/

/-- The fields of `_transcribe_with_whisper_robust`'s result read by
`_calculate_comprehensive_confidence`. -/
structure TranscriptionResult where
  confidence : ℚ
  word_count : ℕ
  deriving DecidableEq, Repr

/-- The result of `_analyze_cooking_content`.  The `time_indicators` and
`measurements` entries are dictionaries in the source; only their presence
(list non-emptiness) is read by the confidence computation, so they are
modelled as strings. -/
structure CookingAnalysis where
  actions : List String
  ingredients : List String
  time_indicators : List String
  measurements : List String
  instructions : List String
  cooking_density : ℚ
  deriving DecidableEq, Repr

/-- The audio-quality metrics of `_validate_audio_quality` read by the
confidence computation. -/
structure AudioMetrics where
  quality_score : ℚ
  deriving DecidableEq, Repr

/-- `_calculate_comprehensive_confidence`: base 0.3, plus 0.3 times the
transcription confidence, plus 0.2 times the audio-quality score, plus at most
0.2 from cooking-term density, plus 0.05 for each non-empty mined category
except instructions which adds 0.1, plus a word-count bonus of 0.1 (over 50
words) or 0.05 (over 20), capped at 0.95. -/
def calculate_comprehensive_confidence (tr : TranscriptionResult)
    (ca : CookingAnalysis) (am : AudioMetrics) : ℚ :=
  let c : ℚ := 3/10 + tr.confidence * (3/10) + am.quality_score * (1/5)
      + min (ca.cooking_density * 2) (1/5)
  let elements : ℚ :=
    (if !ca.actions.isEmpty then 1/20 else 0)
    + (if !ca.ingredients.isEmpty then 1/20 else 0)
    + (if !ca.time_indicators.isEmpty then 1/20 else 0)
    + (if !ca.measurements.isEmpty then 1/20 else 0)
    + (if !ca.instructions.isEmpty then 1/10 else 0)
  let c := c + elements
  let c := if tr.word_count > 50 then c + 1/10
           else if tr.word_count > 20 then c + 1/20 else c
  min c (19/20)

/-! ## Service-boundary results -/

/-- The fields of `transcribe_video_audio`'s result dictionary that downstream
code settled by a claim reads.  (Its other keys — `instructions`,
`time_indicators`, `measurements`, quality metrics — are only interpolated
into AI prompts or are absent from the keys the fusion context looks up.) -/
structure TranscribeResult where
  transcription : String
  confidence : ℚ
  deriving DecidableEq, Repr

/-- `_create_failed_result` of the audio processor (only modelled fields). -/
def failed_audio_result : TranscribeResult :=
  { transcription := "", confidence := 1/10 }

/-- The fields of the phase-2 visual result dictionaries read downstream:
`visualIngredients` (read by the fusion context) and `confidence`.  OCR text,
frame analyses and scene changes are only interpolated into AI prompts. -/
structure VisualResult where
  visualIngredients : List String
  confidence : ℚ
  deriving DecidableEq, Repr

/-- `VideoProcessor._create_empty_result` (confidence 0.1). -/
def empty_visual_result : VisualResult :=
  { visualIngredients := [], confidence := 1/10 }

/-- The failure dictionary of `_extract_from_visual` (confidence 0.2). -/
def thumb_failed_visual : VisualResult :=
  { visualIngredients := [], confidence := 1/5 }

/-- The audio-result shape consumed by the fusion context: confidence,
transcription and the parsed cooking-time mentions in minutes. -/
structure AudioLike where
  confidence : ℚ
  transcription : String
  cookingTimes : List ℚ
  deriving DecidableEq, Repr

/-- `_simulate_audio_transcription`: generate placeholder instructions from
the text context. -/
def simulate_audio_transcription (t : TextResult) : String :=
  if t.instructions ≠ "" then "Audio transcription: " ++ t.instructions
  else if !t.ingredients.isEmpty then
    "1. Prepare " ++ strJoin ", " (t.ingredients.take 3)
      ++ " and other ingredients.\n2. Follow cooking steps as demonstrated in video.\n3. Cook until done and season to taste."
  else ""

/-- `_fallback_audio_extraction`: placeholder instructions from the text
context, confidence 0.3 when any were generated and 0.1 otherwise. -/
def fallback_audio_extraction (t : TextResult) : AudioLike :=
  let instr := simulate_audio_transcription t
  { confidence := if instr ≠ "" then 3/10 else 1/10
    transcription := "Audio transcription not available"
    cookingTimes := [] }

/-! ## FusionEngine (`ai_fusion_service.py`) -/

/-- The slice of the text result stored in the fusion context
(`_prepare_fusion_context`'s `context["text"]["data"]` plus its confidence).
`extracted_difficulty` and `extracted_instructions` are stored but only
interpolated into AI prompts, so they are omitted. -/
structure TextCtx where
  confidence : ℚ
  description : String
  ingredients : List String
  category : Option String
  cookingTime : Option ℕ
  deriving DecidableEq, Repr

/-- The fusion context.  The text source is always present (the text result
dictionary is never empty, so Python's `if text_result:` is always true in the
pipeline); audio and visual participate only when present with confidence
strictly above 0.3. -/
structure FusionContext where
  text : TextCtx
  audio : Option AudioLike
  visual : Option VisualResult
  deriving DecidableEq, Repr

/-- `_prepare_fusion_context`. -/
def prepare_fusion_context (t : TextResult) (a : Option AudioLike)
    (v : Option VisualResult) : FusionContext :=
  { text :=
      { confidence := t.confidence
        description := t.sourceText
        ingredients := t.ingredients
        category := t.category
        cookingTime := t.cookingTime }
    audio := match a with
      | some x => if x.confidence > 3/10 then some x else none
      | none => none
    visual := match v with
      | some x => if x.confidence > 3/10 then some x else none
      | none => none }

/-- Candidate labels of the fusion category classification (8 labels,
including "Side Dishes", unlike the 7 of the text extractor). -/
def categories8 : List String :=
  ["Main Course", "Desserts", "Starters", "Beverages",
   "Snacks", "Breakfast", "Salads", "Side Dishes"]

/-- Candidate labels of the fusion difficulty classification. -/
def difficulties3 : List String := ["Easy", "Medium", "Hard"]

/-- `_fallback_title`: the first three text ingredients joined plus
" Recipe"; else the first five transcription words plus " Recipe" when the
transcript mentions "recipe"; else "Delicious Recipe". -/
def fallback_title (c : FusionContext) : String :=
  if !c.text.ingredients.isEmpty then
    strJoin ", " (c.text.ingredients.take 3) ++ " Recipe"
  else
    match c.audio with
    | some a =>
      if strContains (strToLower a.transcription) "recipe" then
        strJoin " " ((strWords a.transcription).take 5) ++ " Recipe"
      else "Delicious Recipe"
    | none => "Delicious Recipe"

/-- `_fallback_category`: the text category when non-empty, else keyword rules
over the concatenated description and transcription. -/
def fallback_category (c : FusionContext) : String :=
  let ruleBased :=
    let all_text := c.text.description
      ++ (match c.audio with | some a => a.transcription | none => "")
    let tl := strToLower all_text
    if ["dessert", "sweet", "cake", "cookie"].any (fun kw => strContains tl kw) then "Desserts"
    else if ["drink", "smoothie", "juice"].any (fun kw => strContains tl kw) then "Beverages"
    else if ["salad", "greens"].any (fun kw => strContains tl kw) then "Salads"
    else if ["breakfast", "morning"].any (fun kw => strContains tl kw) then "Breakfast"
    else "Main Course"
  match c.text.category with
  | some cat => if cat ≠ "" then cat else ruleBased
  | none => ruleBased

/-- `_fallback_difficulty`: complexity score from the maximal ingredient count
across sources and the text cooking time.  When the text cooking time is
`None` the Python `max(int, None)` raises a `TypeError`; `fuse` routes that
case to the complete fallback before this function is reached, so `getD 0`
here is only evaluated with a present value. -/
def fallback_difficulty (c : FusionContext) : String :=
  let total_ingredients := max c.text.ingredients.length
    (match c.visual with | some v => v.visualIngredients.length | none => 0)
  let s1 : ℕ := if total_ingredients > 10 then 2 else if total_ingredients > 6 then 1 else 0
  let time := c.text.cookingTime.getD 0
  let s2 : ℕ := if time > 60 then 2 else if time > 30 then 1 else 0
  if s1 + s2 ≥ 3 then "Hard" else if s1 + s2 ≥ 1 then "Medium" else "Easy"

/-- First attempt of `_fallback_cooking_time`: the text time when within
[5, 240]. -/
def fallback_cooking_time_text (c : FusionContext) : Option ℕ :=
  match c.text.cookingTime with
  | some tm => if 5 ≤ tm ∧ tm ≤ 240 then some tm else none
  | none => none

/-- Second attempt of `_fallback_cooking_time`: the floor of the average of
the audio cooking-time mentions when within [5, 240]. -/
def fallback_cooking_time_audio (c : FusionContext) : Option ℕ :=
  match c.audio with
  | some a =>
    if !a.cookingTimes.isEmpty then
      let avg : ℚ := a.cookingTimes.sum / (a.cookingTimes.length : ℚ)
      if 5 ≤ avg ∧ avg ≤ 240 then some (⌊avg⌋).toNat else none
    else none
  | none => none

/-- Final default of `_fallback_cooking_time`: from the text ingredient
count. -/
def fallback_cooking_time_default (c : FusionContext) : ℕ :=
  if c.text.ingredients.length > 8 then 45
  else if c.text.ingredients.length > 5 then 35 else 25

/-- `_fallback_cooking_time`: the text time when within [5, 240]; else the
floor of the average of the audio cooking-time mentions when within [5, 240];
else a default from the text ingredient count. -/
def fallback_cooking_time (c : FusionContext) : ℕ :=
  match fallback_cooking_time_text c with
  | some tm => tm
  | none =>
    match fallback_cooking_time_audio c with
    | some tm => tm
    | none => fallback_cooking_time_default c

/-- `_fallback_ingredients`: text ingredients, then ingredients mined from the
audio transcription, then visual ingredients; de-duplicated (dropping empty
strings, per Python truthiness) and capped at 12.  `audioMined` abstracts
`_extract_ingredients_from_text_simple(transcription)`, a pure regex miner
whose output no settled claim inspects. -/
def fallback_ingredients (c : FusionContext) (audioMined : List String) : List String :=
  let all := c.text.ingredients
    ++ (match c.audio with | some _ => audioMined | none => [])
    ++ (match c.visual with | some v => v.visualIngredients | none => [])
  (all.foldl
    (fun uniq ing => if ing ≠ "" && !uniq.contains ing then uniq ++ [ing] else uniq)
    []).take 12

/-- `_calculate_ai_fusion_confidence`: weighted average of the participating
sources' confidences (weights text 0.6, audio 0.3, visual 0.1), plus a flat AI
boost 0.15, plus 0.05 per participating source capped at 0.15, plus
completeness bonuses (title longer than 5: +0.05; at least 3 ingredients:
+0.05; non-empty category: +0.03; positive cooking time: +0.02), capped at
0.95. -/
def calculate_ai_fusion_confidence (c : FusionContext) (title : String)
    (category : String) (cookingTime : ℕ) (ingredients : List String) : ℚ :=
  let weighted : ℚ := 3/5 * c.text.confidence
    + (match c.audio with | some a => 3/10 * a.confidence | none => 0)
    + (match c.visual with | some v => 1/10 * v.confidence | none => 0)
  let total : ℚ := 3/5 + (if c.audio.isSome then 3/10 else 0)
    + (if c.visual.isSome then 1/10 else 0)
  let base := if total > 0 then weighted / total else 1/2
  let source_count : ℕ :=
    1 + (if c.audio.isSome then 1 else 0) + (if c.visual.isSome then 1 else 0)
  let multi : ℚ := min ((source_count : ℚ) * (1/20)) (3/20)
  let completeness : ℚ :=
    (if title ≠ "" ∧ title.length > 5 then 1/20 else 0)
    + (if ingredients ≠ [] ∧ ingredients.length ≥ 3 then 1/20 else 0)
    + (if category ≠ "" then 3/100 else 0)
    + (if cookingTime > 0 then 1/50 else 0)
  min (base + 3/20 + multi + completeness) (19/20)

/-- The fused recipe (`fuse_multimodal_data_with_ai`'s result dictionary;
field-bearing keys plus confidence and data sources; the `fusionMethod`,
`sourceWeights`, timestamp and `extractedFields` metadata are not modelled).
`category`, `difficulty` and `cookingTime` are `Option`s because the complete
fallback copies the text result's possibly-`None` values. -/
structure FusedRecipe where
  title : String
  category : Option String
  difficulty : Option String
  cookingTime : Option ℕ
  ingredients : List String
  confidence : ℚ
  dataSources : List String
  deriving DecidableEq, Repr

/-- `_fallback_fusion`: the complete fallback built from the text result alone
(`text_result.get(...)`; the text dictionary has no "title" key, so the title
default "Recipe" is always used), with confidence fixed at 0.4 and data
sources ["text"]. -/
def fallback_fusion (t : TextResult) : FusedRecipe :=
  { title := "Recipe"
    category := t.category
    difficulty := t.difficulty
    cookingTime := t.cookingTime
    ingredients := t.ingredients
    confidence := 2/5
    dataSources := ["text"] }

/-- External-call outcomes of one run of `fuse_multimodal_data_with_ai`. -/
structure FuseWorld where
  /-- Whether the body of the top-level `try:` runs without raising. -/
  inner : Bool
  /-- Accepted output of `_parse_title_from_generation` on a 200 response
  (`none`: non-200, exception, or no parseable title, all of which fall back).
  The code additionally requires length over 5 before accepting. -/
  aiTitle : Option String
  /-- Top label index of the fusion category zero-shot call into
  `categories8`; `none` falls back. -/
  aiCategory : Option (Fin 8)
  /-- Top label index of the difficulty zero-shot call into `difficulties3`;
  `none` falls back. -/
  aiDifficulty : Option (Fin 3)
  /-- Parsed time of `_parse_time_from_generation`; the code additionally
  requires membership in [5, 240] before accepting. -/
  aiTime : Option ℕ
  /-- Parsed list of `_parse_ingredients_from_generation`; the code
  additionally requires at least 2 entries before accepting. -/
  aiIngredients : Option (List String)
  /-- Abstracts `_extract_ingredients_from_text_simple` applied to the audio
  transcription inside `_fallback_ingredients`. -/
  audioMined : List String
  deriving DecidableEq, Repr

/-- `fuse_multimodal_data_with_ai`.  Every per-field AI extractor catches its
own exceptions and falls back, so the `isinstance(..., Exception)` defaults at
the gather site are dead code with one exception: when the text cooking time
is `None` (catastrophic text failure) and the difficulty AI call fails,
`_fallback_difficulty` raises a `TypeError` (`max(int, None)`) inside the
`except` handler; re-raised at the compile site, it escapes to the top-level
`except`, which returns the complete fallback.  A failed top-level body also
returns the complete fallback: fusion never propagates an exception. -/
def fuse_multimodal_data_with_ai (t : TextResult) (a : Option AudioLike)
    (v : Option VisualResult) (w : FuseWorld) : FusedRecipe :=
  if !w.inner then fallback_fusion t
  else if w.aiDifficulty = none ∧ t.cookingTime = none then fallback_fusion t
  else
    let c := prepare_fusion_context t a v
    let title := match w.aiTitle with
      | some s => if s.length > 5 then s else fallback_title c
      | none => fallback_title c
    let category := match w.aiCategory with
      | some i => categories8.get (i.cast rfl)
      | none => fallback_category c
    let difficulty := match w.aiDifficulty with
      | some i => difficulties3.get (i.cast rfl)
      | none => fallback_difficulty c
    let cookingTime := match t.cookingTime with
      | none => fallback_cooking_time c
      | some _ =>
        match w.aiTime with
        | some n => if 5 ≤ n ∧ n ≤ 240 then n else fallback_cooking_time c
        | none => fallback_cooking_time c
    let ingredients := match w.aiIngredients with
      | some l => if l.length ≥ 2 then l else fallback_ingredients c w.audioMined
      | none => fallback_ingredients c w.audioMined
    { title := title
      category := some category
      difficulty := some difficulty
      cookingTime := some cookingTime
      ingredients := ingredients
      confidence := calculate_ai_fusion_confidence c title category cookingTime ingredients
      dataSources := ["text"] ++ (if c.audio.isSome then ["audio"] else [])
        ++ (if c.visual.isSome then ["visual"] else []) }

/-! ## Mistral refinement (`mistral_service.py`) -/

/-- The validated recipe shape of the Mistral service.  On the success path
the ingredient entries are `{name, amount, unit}` dictionaries; only the
fallback path (which copies the fusion result's plain string list) is
inspected by a settled claim, so ingredients are modelled as strings. -/
structure MistralRecipe where
  recipe_name : String
  category : String
  total_minutes : ℕ
  ingredients : List String
  instructions : List String
  difficulty : String
  deriving DecidableEq, Repr

/-- `extract_structured_recipe`'s result envelope. -/
structure MistralResult where
  success : Bool
  recipe_data : MistralRecipe
  confidence : ℚ
  deriving DecidableEq, Repr

/-- `_create_fallback_result`: a generic recipe whose ingredients come from
the last phase dictionary with an "ingredients" key — always the phase-4
fusion result — and whose instructions are the phase-3 transcription when
present and non-empty (no other phase dictionary has a "transcription" key),
delivered with confidence 0.3. -/
def create_fallback_result (fusionIngredients : List String)
    (audioTranscription : Option String) : MistralResult :=
  { success := false
    recipe_data :=
      { recipe_name := "Instagram Recipe"
        category := "Main Course"
        total_minutes := 30
        ingredients := fusionIngredients
        instructions := match audioTranscription with
          | some s => if s ≠ "" then [s] else []
          | none => []
        difficulty := "Medium" }
    confidence := 3/10 }

/-! ## Orchestrator (`extract_progressive`) and API wiring -/

/-- External-call outcomes of one full pipeline run. -/
structure World where
  textW : TextWorld
  /-- Whether the body of `process_instagram_video_for_recipe`'s `try:` runs
  without raising (covers download failure, frame-extraction failure and any
  unexpected internal exception, all caught by its own handlers). -/
  visualInner : Bool
  /-- The success result of `process_instagram_video_for_recipe`
  (over-approximated as an arbitrary value). -/
  visualValue : VisualResult
  /-- Whether the thumbnail path `_extract_from_visual` succeeds. -/
  thumbInner : Bool
  /-- The success result of `_extract_from_visual`. -/
  thumbValue : VisualResult
  /-- Whether the body of `transcribe_video_audio`'s `try:` runs without
  raising and all its internal steps succeed. -/
  audioInner : Bool
  /-- The success result of `transcribe_video_audio`. -/
  audioValue : TranscribeResult
  /-- Whether the body of `_extract_from_audio`'s `try:` (outside the inner
  transcriber call) runs without raising. -/
  audioWrapInner : Bool
  /-- Abstracts `_extract_cooking_times_from_audio` applied to the transcriber
  result's time indicators (minute values). -/
  audioCookingTimes : List ℚ
  fuseW : FuseWorld
  /-- Whether the Mistral call succeeds with parseable output. -/
  mistralOk : Bool
  /-- The parsed and validated Mistral recipe on success. -/
  mistralRecipe : MistralRecipe
  deriving DecidableEq, Repr

/-- `VideoProcessor.process_instagram_video_for_recipe`: every internal
failure is caught and yields `_create_empty_result` (confidence 0.1); the
function never raises. -/
def process_instagram_video_for_recipe (w : World) : VisualResult :=
  if w.visualInner then w.visualValue else empty_visual_result

/-- `_extract_from_visual` (thumbnail path): every internal failure is caught
and yields the confidence-0.2 failure dictionary; the function never raises. -/
def extract_from_visual (w : World) : VisualResult :=
  if w.thumbInner then w.thumbValue else thumb_failed_visual

/-- `transcribe_video_audio`: every internal failure is caught and yields
`_create_failed_result` (confidence 0.1); the function never raises. -/
def transcribe_video_audio (w : World) : TranscribeResult :=
  if w.audioInner then w.audioValue else failed_audio_result

/-- `_extract_from_audio` (the `video_url` branch wrapper): transcribe, fall
back when the transcription is missing or has confidence below 0.3, otherwise
return the wrapper dictionary (whose enhanced-instructions string no settled
claim inspects). -/
def extract_from_audio (t : TextResult) (w : World) : AudioLike :=
  if w.audioWrapInner then
    let a := transcribe_video_audio w
    if a.confidence < 3/10 then fallback_audio_extraction t
    else
      { confidence := a.confidence
        transcription := a.transcription
        cookingTimes := w.audioCookingTimes }
  else fallback_audio_extraction t

/-- Python truthiness of an optional string (`None` and `""` are falsy). -/
def truthy (o : Option String) : Bool := o.getD "" != ""

/-- The phase-1 text result of a run. -/
def pipeline_text (description caption : String) (w : World) : TextResult :=
  extract_from_text_enhanced description caption w.textW

/-- The phase-2 visual result of a run (`None` when neither branch runs). -/
def pipeline_visual (instagram_url : String) (thumbnail_url : Option String)
    (w : World) : Option VisualResult :=
  if instagram_url ≠ "" then some (process_instagram_video_for_recipe w)
  else if truthy thumbnail_url then some (extract_from_visual w)
  else none

/-- The phase-3 audio result of a run: the raw transcriber dictionary on the
Instagram branch, the wrapper dictionary on the `video_url` branch, `None`
when neither runs. -/
def pipeline_audio_raw (instagram_url : String) (video_url : Option String)
    (t : TextResult) (w : World) : Option (TranscribeResult ⊕ AudioLike) :=
  if instagram_url ≠ "" then some (.inl (transcribe_video_audio w))
  else if truthy video_url then some (.inr (extract_from_audio t w))
  else none

/-- How `_prepare_fusion_context` reads an audio result dictionary: the raw
transcriber dictionary has no `cookingTimes` key (its keys are snake-cased),
so `.get("cookingTimes", [])` yields the empty list there. -/
def audio_ctx_of_raw : TranscribeResult ⊕ AudioLike → AudioLike
  | .inl a => { confidence := a.confidence, transcription := a.transcription, cookingTimes := [] }
  | .inr a => a

/-- The transcription string of a phase-3 result (read by the Mistral
fallback scan). -/
def raw_transcription : TranscribeResult ⊕ AudioLike → String
  | .inl a => a.transcription
  | .inr a => a.transcription

/-- The phase-4 fusion result of a run: `fuse_multimodal_data_with_ai` is
called with the audio result only when `video_url` is truthy and the visual
result only when `thumbnail_url` is truthy (`extract_progressive` lines
177-181). -/
def pipeline_fused (instagram_url : String) (thumbnail_url : Option String)
    (description caption : String) (video_url : Option String) (w : World) :
    FusedRecipe :=
  let t := pipeline_text description caption w
  let audioArg := if truthy video_url then
      (pipeline_audio_raw instagram_url video_url t w).map audio_ctx_of_raw
    else none
  let visualArg := if truthy thumbnail_url then
      pipeline_visual instagram_url thumbnail_url w
    else none
  fuse_multimodal_data_with_ai t audioArg visualArg w.fuseW

/-- `MistralService.extract_structured_recipe` applied to the run's
`complete_data` bundle: the validated Mistral recipe with confidence 0.95 on
success, `_create_fallback_result` otherwise; the function never raises. -/
def pipeline_mistral (instagram_url : String) (thumbnail_url : Option String)
    (description caption : String) (video_url : Option String) (w : World) :
    MistralResult :=
  if w.mistralOk then
    { success := true, recipe_data := w.mistralRecipe, confidence := 19/20 }
  else
    let t := pipeline_text description caption w
    create_fallback_result
      (pipeline_fused instagram_url thumbnail_url description caption video_url w).ingredients
      ((pipeline_audio_raw instagram_url video_url t w).map raw_transcription)

/-- The payload attached to a progress event (`.missing` models an absent
`data` key, which Python reads as falsy `None`). -/
inductive EventData where
  | missing
  | text (r : TextResult)
  | visual (r : VisualResult)
  | audioT (r : TranscribeResult)
  | audioW (r : AudioLike)
  | fused (r : FusedRecipe)
  | mistral (r : MistralResult)
  deriving DecidableEq, Repr

/-- One yielded progress event (`phase = none` models the `"error"` phase tag
of the exception path; timestamps and per-event confidences are not
modelled). -/
structure Event where
  phase : Option ℕ
  status : String
  message : String
  progress : ℕ
  data : EventData
  deriving DecidableEq, Repr

/-- `MultiModalAIService.extract_progressive`: the full event sequence of one
run.  Every service invoked by the body catches its own exceptions and
returns a fallback value, so the body never raises and the generator's
top-level `except` branch (which would yield the `"error"`-phase failed event
with progress 0) is unreachable; the model therefore always emits the
success-path sequence. -/
def extract_progressive (instagram_url : String) (thumbnail_url : Option String)
    (description caption : String) (video_url : Option String) (w : World) :
    List Event :=
  let t := pipeline_text description caption w
  let phase1 : List Event :=
    [⟨some 1, "processing", "Reading caption and description...", 25, .missing⟩,
     ⟨some 1, "completed", "Text analysis completed", 25, .text t⟩]
  let phase2 : List Event :=
    if instagram_url ≠ "" then
      [⟨some 2, "processing", "Downloading and analyzing Instagram video...", 40, .missing⟩,
       ⟨some 2, "completed", "Instagram video analysis completed", 65,
        .visual (process_instagram_video_for_recipe w)⟩]
    else if truthy thumbnail_url then
      [⟨some 2, "processing", "Analyzing thumbnail image for ingredients...", 50, .missing⟩,
       ⟨some 2, "completed", "Visual analysis completed", 65, .visual (extract_from_visual w)⟩]
    else []
  let phase3 : List Event :=
    if instagram_url ≠ "" then
      [⟨some 3, "processing", "Extracting and transcribing Instagram audio...", 75, .missing⟩,
       ⟨some 3, "completed", "Instagram audio transcription completed", 85,
        .audioT (transcribe_video_audio w)⟩]
    else if truthy video_url then
      [⟨some 3, "processing", "Transcribing cooking instructions...", 80, .missing⟩,
       ⟨some 3, "completed", "Audio transcription completed", 85, .audioW (extract_from_audio t w)⟩]
    else []
  let fusedR := pipeline_fused instagram_url thumbnail_url description caption video_url w
  let mistralR := pipeline_mistral instagram_url thumbnail_url description caption video_url w
  phase1 ++ phase2 ++ phase3 ++
    [⟨some 4, "processing", "AI analyzing all sources for optimal recipe extraction...", 100, .missing⟩,
     ⟨some 4, "completed", "AI fusion completed, starting final processing...", 90, .fused fusedR⟩,
     ⟨some 5, "processing", "Mistral AI extracting structured recipe data for 100% accuracy...", 95, .missing⟩,
     ⟨some 5, "completed", "Recipe extraction completed with maximum accuracy", 100, .mistral mistralR⟩]

/-- The request model of `POST /extract/*` (`max_processing_time` is accepted
by the API model but never read by the pipeline and is omitted). -/
structure MultiModalExtractionRequest where
  instagram_url : String
  enable_visual_analysis : Bool
  enable_audio_transcription : Bool
  deriving DecidableEq, Repr

/-- The Instagram metadata consumed by the extraction endpoints. -/
structure InstagramMetadata where
  thumbnailUrl : Option String
  description : String
  title : String
  deriving DecidableEq, Repr

/-- `generate_extraction_stream`'s wiring (shared verbatim by the batch
endpoint): the thumbnail handle is forwarded only when visual analysis is
enabled, and `video_url` is the Instagram URL only when audio transcription is
enabled. -/
def generate_extraction_stream (req : MultiModalExtractionRequest)
    (meta : InstagramMetadata) (w : World) : List Event :=
  extract_progressive req.instagram_url
    (if req.enable_visual_analysis then meta.thumbnailUrl else none)
    meta.description meta.title
    (if req.enable_audio_transcription then some req.instagram_url else none) w

/-- `extract_multimodal_batch`: drain the same event stream, keep the data of
the last phase-4 completed event; if none was seen (or it was falsy), fall
back to the data of the last completed event carrying a truthy payload. -/
def extract_multimodal_batch (req : MultiModalExtractionRequest)
    (meta : InstagramMetadata) (w : World) : Option EventData :=
  let results := generate_extraction_stream req meta w
  let primary := ((results.filter
      (fun e => e.phase == some 4 && e.status == "completed")).getLast?).map Event.data
  match primary with
  | some d => some d
  | none =>
    (results.reverse.find? (fun e => e.status == "completed" && e.data != EventData.missing)).map
      Event.data

/-! ## Helper lemmas -/

lemma str_ne_empty_of_len (s : String) (h : s.length ≠ 0) : s ≠ "" :=
  fun he => h (by rw [he]; rfl)

lemma append_recipe_ne_empty (s : String) : s ++ " Recipe" ≠ "" := by
  apply str_ne_empty_of_len
  rw [String.length_append]
  have h7 : (" Recipe").length = 7 := rfl
  omega

lemma fallback_title_ne_empty (c : FusionContext) : fallback_title c ≠ "" := by
  simp only [fallback_title]
  split_ifs with h1
  · exact append_recipe_ne_empty _
  · cases ha : c.audio with
    | none => decide
    | some a =>
      dsimp only
      split_ifs with h2
      · exact append_recipe_ne_empty _
      · decide

lemma fallback_category_ne_empty (c : FusionContext) : fallback_category c ≠ "" := by
  simp only [fallback_category]
  cases hc : c.text.category with
  | none => split_ifs <;> decide
  | some cat =>
    dsimp only
    split_ifs <;> first | assumption | decide

lemma fallback_difficulty_ne_empty (c : FusionContext) : fallback_difficulty c ≠ "" := by
  simp only [fallback_difficulty]
  split_ifs <;> decide

lemma categories8_get_ne_empty (i : Fin 8) : categories8.get (i.cast rfl) ≠ "" := by
  fin_cases i <;> decide

lemma difficulties3_get_ne_empty (i : Fin 3) : difficulties3.get (i.cast rfl) ≠ "" := by
  fin_cases i <;> decide

lemma categories7_get_ne_empty (i : Fin 7) : categories7.get (i.cast rfl) ≠ "" := by
  fin_cases i <;> decide

lemma determine_difficulty_ne_empty (ing : List String) (ct : ℕ) (s : String) :
    determine_difficulty_advanced ing ct s ≠ "" := by
  simp only [determine_difficulty_advanced]
  split_ifs <;> decide


/-! ## Claim C9 — TextExtractor confidence formula -/

/-- The text-confidence formula as claim C9 states it: base 0.5 plus the
length, ingredient and cooking-keyword boosts, capped at 0.9 — with no
averaging against the category confidence. -/
def text_confidence_claimed (text : String) (ingredients : List String) : ℚ :=
  let score : ℚ := 1/2
  let score := if text.length > 100 then score + 1/10 else score
  let score := if text.length > 300 then score + 1/10 else score
  let score := if ingredients.length ≥ 3 then score + 1/10 else score
  let score := if ingredients.length ≥ 6 then score + 1/10 else score
  let score :=
    if cooking_words.any (fun w => strContains (strToLower text) w) then score + 1/10 else score
  min score (9/10)

/-- A 110-character text containing no cooking keyword. -/
def c9_text : String := String.mk (List.replicate 110 'z')

/-- Claim C9 is false on the code: `_calculate_text_confidence` averages the
accumulated score with the category confidence before the cooking-keyword
bonus, a step the claim omits.  On a 110-character text with no ingredients
and category confidence 0.5 the code returns 0.55 while the claimed formula
gives 0.6. -/
theorem c9_counterexample :
    calculate_text_confidence c9_text [] (1/2) = 11/20 ∧
    text_confidence_claimed c9_text [] = 3/5 ∧
    calculate_text_confidence c9_text [] (1/2) ≠ text_confidence_claimed c9_text [] := by
  have hc : (cooking_words.any fun w => strContains (strToLower c9_text) w) = false := by
    decide
  have h1 : c9_text.length = 110 := by decide
  have e1 : calculate_text_confidence c9_text [] (1/2) = 11/20 := by
    simp [calculate_text_confidence, hc, h1]
    norm_num [min_def]
  have e2 : text_confidence_claimed c9_text [] = 3/5 := by
    simp [text_confidence_claimed, hc, h1]
    norm_num [min_def]
  exact ⟨e1, e2, by rw [e1, e2]; norm_num⟩

/-- Claim C9 as amended: the TextExtractor's confidence equals the average of
(base 0.5 plus the length and ingredient boosts) with the category-classifier
confidence, plus 0.1 when a cooking keyword occurs, capped at 0.9. -/
theorem c9_amended_confidence_formula (text : String) (ingredients : List String)
    (category_confidence : ℚ) :
    calculate_text_confidence text ingredients category_confidence =
      min ((((1:ℚ)/2 + (if text.length > 100 then (1:ℚ)/10 else 0)
            + (if text.length > 300 then (1:ℚ)/10 else 0)
            + (if ingredients.length ≥ 3 then (1:ℚ)/10 else 0)
            + (if ingredients.length ≥ 6 then (1:ℚ)/10 else 0)
            + category_confidence) / 2)
          + (if cooking_words.any (fun w => strContains (strToLower text) w) then (1:ℚ)/10 else 0))
        (9/10) := by
  simp only [calculate_text_confidence]
  split_ifs <;> (congr 1 <;> ring)

/-! ## Claim C10 — AudioExtractor confidence formula -/

/-- The audio-confidence formula as claim C10 states it: every mined category
(including instructions) contributes 0.05, at most 0.25 total. -/
def comprehensive_confidence_claimed (tr : TranscriptionResult)
    (ca : CookingAnalysis) (am : AudioMetrics) : ℚ :=
  let c : ℚ := 3/10 + tr.confidence * (3/10) + am.quality_score * (1/5)
      + min (ca.cooking_density * 2) (1/5)
  let elements : ℚ :=
    (if !ca.actions.isEmpty then 1/20 else 0)
    + (if !ca.ingredients.isEmpty then 1/20 else 0)
    + (if !ca.time_indicators.isEmpty then 1/20 else 0)
    + (if !ca.measurements.isEmpty then 1/20 else 0)
    + (if !ca.instructions.isEmpty then 1/20 else 0)
  let c := c + elements
  let c := if tr.word_count > 50 then c + 1/10
           else if tr.word_count > 20 then c + 1/20 else c
  min c (19/20)

/-- An analysis in which only the instructions category is present. -/
def c10_analysis : CookingAnalysis :=
  { actions := [], ingredients := [], time_indicators := [], measurements := []
    instructions := ["Add the salt."], cooking_density := 0 }

/-- Claim C10 is false on the code: `_calculate_comprehensive_confidence`
gives the instructions category a 0.1 bonus, not 0.05 (so the category boosts
can total 0.3, not 0.25).  With only instructions present and every other
contribution zero, the code returns 0.4 while the claimed formula gives
0.35. -/
theorem c10_counterexample :
    calculate_comprehensive_confidence ⟨0, 0⟩ c10_analysis ⟨0⟩ = 2/5 ∧
    comprehensive_confidence_claimed ⟨0, 0⟩ c10_analysis ⟨0⟩ = 7/20 ∧
    calculate_comprehensive_confidence ⟨0, 0⟩ c10_analysis ⟨0⟩ ≠
      comprehensive_confidence_claimed ⟨0, 0⟩ c10_analysis ⟨0⟩ := by
  have e1 : calculate_comprehensive_confidence ⟨0, 0⟩ c10_analysis ⟨0⟩ = 2/5 := by
    simp [calculate_comprehensive_confidence, c10_analysis]
    norm_num [min_def]
  have e2 : comprehensive_confidence_claimed ⟨0, 0⟩ c10_analysis ⟨0⟩ = 7/20 := by
    simp [comprehensive_confidence_claimed, c10_analysis]
    norm_num [min_def]
  exact ⟨e1, e2, by rw [e1, e2]; norm_num⟩

/-- Claim C10 as amended: the AudioExtractor's confidence is base 0.3, plus
0.3 times the transcription confidence, plus 0.2 times the audio-quality
score, plus at most 0.2 from cooking-term density, plus 0.05 for the presence
of each of actions, ingredients, time indicators and measurements and 0.1 for
the presence of instructions (so at most 0.3 from the mined categories), plus
0.1 or 0.05 for the word-count thresholds, capped at 0.95. -/
theorem c10_amended_confidence_formula (tr : TranscriptionResult)
    (ca : CookingAnalysis) (am : AudioMetrics) :
    calculate_comprehensive_confidence tr ca am =
      min ((3:ℚ)/10 + tr.confidence * (3/10) + am.quality_score * (1/5)
          + min (ca.cooking_density * 2) (1/5)
          + ((if !ca.actions.isEmpty then (1:ℚ)/20 else 0)
             + (if !ca.ingredients.isEmpty then (1:ℚ)/20 else 0)
             + (if !ca.time_indicators.isEmpty then (1:ℚ)/20 else 0)
             + (if !ca.measurements.isEmpty then (1:ℚ)/20 else 0)
             + (if !ca.instructions.isEmpty then (1:ℚ)/10 else 0))
          + (if tr.word_count > 50 then (1:ℚ)/10
             else if tr.word_count > 20 then (1:ℚ)/20 else 0))
        (19/20) ∧
    ((if !ca.actions.isEmpty then (1:ℚ)/20 else 0)
      + (if !ca.ingredients.isEmpty then (1:ℚ)/20 else 0)
      + (if !ca.time_indicators.isEmpty then (1:ℚ)/20 else 0)
      + (if !ca.measurements.isEmpty then (1:ℚ)/20 else 0)
      + (if !ca.instructions.isEmpty then (1:ℚ)/10 else 0)) ≤ 3/10 := by
  constructor
  · simp only [calculate_comprehensive_confidence]
    split_ifs <;> (congr 1 <;> ring)
  · split_ifs <;> norm_num

/-! ## Claim C3 — fusion never propagates an exception -/

/-- Claim C3: for every combination of phase inputs, when the body of
`fuse_multimodal_data_with_ai` throws, the function returns (rather than
raises) the fallback FusedRecipe built from the text phase alone, with
confidence exactly 0.4 and data sources exactly ["text"].  (The model is a
total function by construction, mirroring the `try/except` that converts
every internal exception into `_fallback_fusion`.) -/
theorem c3_fusion_never_propagates (t : TextResult) (a : Option AudioLike)
    (v : Option VisualResult) (w : FuseWorld) (h : w.inner = false) :
    fuse_multimodal_data_with_ai t a v w = fallback_fusion t ∧
    (fuse_multimodal_data_with_ai t a v w).confidence = 2/5 ∧
    (fuse_multimodal_data_with_ai t a v w).dataSources = ["text"] := by
  have he : fuse_multimodal_data_with_ai t a v w = fallback_fusion t := by
    simp [fuse_multimodal_data_with_ai, h]
  exact ⟨he, by rw [he]; rfl, by rw [he]; rfl⟩

/-- A concrete text result used to instantiate claim C3. -/
def c3_t : TextResult :=
  { sourceText := "salt and pepper pasta", ingredients := ["salt", "pepper", "pasta"]
    category := some "Main Course", instructions := "", cookingTime := some 30
    difficulty := some "Easy", confidence := 7/10 }

/-- A fusion world whose top-level body throws. -/
def c3_w : FuseWorld :=
  { inner := false, aiTitle := none, aiCategory := none, aiDifficulty := none
    aiTime := none, aiIngredients := none, audioMined := [] }

theorem c3_witness :
    c3_w.inner = false ∧
    (fuse_multimodal_data_with_ai c3_t none none c3_w = fallback_fusion c3_t ∧
     (fuse_multimodal_data_with_ai c3_t none none c3_w).confidence = 2/5 ∧
     (fuse_multimodal_data_with_ai c3_t none none c3_w).dataSources = ["text"]) :=
  ⟨rfl, c3_fusion_never_propagates c3_t none none c3_w rfl⟩

/-! ## Claim C4 — text-only fusion confidence -/

/-- Collapse of the fusion confidence for a text-only context: the weighted
average is the text confidence itself and the per-source boost is 0.05. -/
lemma calc_conf_text_only (tc : TextCtx) (title category : String) (ct : ℕ)
    (ing : List String) :
    calculate_ai_fusion_confidence ⟨tc, none, none⟩ title category ct ing =
      min (tc.confidence + 3/20 + 1/20
        + ((if title ≠ "" ∧ title.length > 5 then (1:ℚ)/20 else 0)
           + (if ing ≠ [] ∧ ing.length ≥ 3 then (1:ℚ)/20 else 0)
           + (if category ≠ "" then (3:ℚ)/100 else 0)
           + (if ct > 0 then (1:ℚ)/50 else 0))) (19/20) := by
  simp only [calculate_ai_fusion_confidence, Option.isSome_none]
  norm_num

/-- The text-only fusion confidence as claim C4 states it: the text
confidence plus a flat 0.15 boost plus the completeness bonuses, capped at
0.95 — with no per-source 0.05 boost. -/
def fusion_confidence_claimed (textConfidence : ℚ) (title : String) (category : String)
    (cookingTime : ℕ) (ingredients : List String) : ℚ :=
  min (textConfidence + 3/20
    + ((if title ≠ "" ∧ title.length > 5 then (1:ℚ)/20 else 0)
       + (if ingredients ≠ [] ∧ ingredients.length ≥ 3 then (1:ℚ)/20 else 0)
       + (if category ≠ "" then (3:ℚ)/100 else 0)
       + (if cookingTime > 0 then (1:ℚ)/50 else 0))) (19/20)

/-- A concrete text result with confidence 0.5 and no ingredients. -/
def c4_t : TextResult :=
  { sourceText := "", ingredients := [], category := some "Main Course", instructions := ""
    cookingTime := some 25, difficulty := some "Easy", confidence := 1/2 }

/-- A fusion world whose per-field AI calls all fall back. -/
def c4_w : FuseWorld :=
  { inner := true, aiTitle := none, aiCategory := none, aiDifficulty := none
    aiTime := none, aiIngredients := none, audioMined := [] }

/-- Claim C4 is false on the code: `_calculate_ai_fusion_confidence` adds a
multi-source boost of `min(source_count * 0.05, 0.15)`, which is 0.05 even
with the text source alone; the claim's formula omits it.  On a text-only
fusion with text confidence 0.5 the code yields 0.80 while the claimed
formula yields 0.75 on the same fused fields. -/
theorem c4_counterexample :
    (fuse_multimodal_data_with_ai c4_t none none c4_w).confidence = 4/5 ∧
    fusion_confidence_claimed c4_t.confidence
      (fuse_multimodal_data_with_ai c4_t none none c4_w).title
      ((fuse_multimodal_data_with_ai c4_t none none c4_w).category.getD "")
      ((fuse_multimodal_data_with_ai c4_t none none c4_w).cookingTime.getD 0)
      (fuse_multimodal_data_with_ai c4_t none none c4_w).ingredients = 3/4 ∧
    (4:ℚ)/5 ≠ 3/4 := by
  have hT : ("Delicious Recipe" ≠ "" ∧ ("Delicious Recipe").length > 5) :=
    ⟨by decide, by decide⟩
  have e1 : (fuse_multimodal_data_with_ai c4_t none none c4_w).confidence = 4/5 := by
    have hstep : (fuse_multimodal_data_with_ai c4_t none none c4_w).confidence =
        calculate_ai_fusion_confidence ⟨⟨1/2, "", [], some "Main Course", some 25⟩, none, none⟩
          "Delicious Recipe" "Main Course" 25 [] := rfl
    rw [hstep, calc_conf_text_only]
    rw [if_pos hT]
    norm_num [min_def]
    rw [if_neg (by decide : ¬("Main Course" : String) = "")]
    norm_num
  have e2 : fusion_confidence_claimed c4_t.confidence
      (fuse_multimodal_data_with_ai c4_t none none c4_w).title
      ((fuse_multimodal_data_with_ai c4_t none none c4_w).category.getD "")
      ((fuse_multimodal_data_with_ai c4_t none none c4_w).cookingTime.getD 0)
      (fuse_multimodal_data_with_ai c4_t none none c4_w).ingredients = 3/4 := by
    have hstep : fusion_confidence_claimed c4_t.confidence
        (fuse_multimodal_data_with_ai c4_t none none c4_w).title
        ((fuse_multimodal_data_with_ai c4_t none none c4_w).category.getD "")
        ((fuse_multimodal_data_with_ai c4_t none none c4_w).cookingTime.getD 0)
        (fuse_multimodal_data_with_ai c4_t none none c4_w).ingredients =
        fusion_confidence_claimed (1/2) "Delicious Recipe" "Main Course" 25 [] := rfl
    rw [hstep]
    unfold fusion_confidence_claimed
    rw [if_pos hT]
    norm_num [min_def]
    rw [if_neg (by decide : ¬("Main Course" : String) = "")]
    norm_num
  exact ⟨e1, e2, by norm_num⟩

/-- Claim C4 as amended: when the text phase produced a result (with a
present cooking time) and no optional source is passed to fusion, and the
fusion body itself does not throw, the fused recipe's data sources are
exactly ["text"] and its confidence is the text confidence plus the flat 0.15
AI boost plus the 0.05 single-source boost plus the completeness bonuses of
the fused fields, capped at 0.95. -/
theorem c4_amended_text_only_confidence (t : TextResult) (w : FuseWorld)
    (h1 : w.inner = true) (ct : ℕ) (h2 : t.cookingTime = some ct) :
    (fuse_multimodal_data_with_ai t none none w).dataSources = ["text"] ∧
    (fuse_multimodal_data_with_ai t none none w).confidence =
      min (t.confidence + 3/20 + 1/20
        + ((if (fuse_multimodal_data_with_ai t none none w).title ≠ "" ∧
              (fuse_multimodal_data_with_ai t none none w).title.length > 5
            then (1:ℚ)/20 else 0)
           + (if (fuse_multimodal_data_with_ai t none none w).ingredients ≠ [] ∧
                (fuse_multimodal_data_with_ai t none none w).ingredients.length ≥ 3
              then (1:ℚ)/20 else 0)
           + (if (fuse_multimodal_data_with_ai t none none w).category.getD "" ≠ ""
              then (3:ℚ)/100 else 0)
           + (if (fuse_multimodal_data_with_ai t none none w).cookingTime.getD 0 > 0
              then (1:ℚ)/50 else 0)))
        (19/20) := by
  have hg : ¬(w.aiDifficulty = none ∧ t.cookingTime = none) := by simp [h2]
  simp only [fuse_multimodal_data_with_ai, h1, Bool.not_true, Bool.false_eq_true, if_false, hg,
    prepare_fusion_context]
  refine ⟨rfl, ?_⟩
  rw [calc_conf_text_only]
  simp only [Option.getD_some]

theorem c4_amended_witness :
    (c4_w.inner = true ∧ c3_t.cookingTime = some 30) ∧
    ((fuse_multimodal_data_with_ai c3_t none none c4_w).dataSources = ["text"] ∧
     (fuse_multimodal_data_with_ai c3_t none none c4_w).confidence =
      min (c3_t.confidence + 3/20 + 1/20
        + ((if (fuse_multimodal_data_with_ai c3_t none none c4_w).title ≠ "" ∧
              (fuse_multimodal_data_with_ai c3_t none none c4_w).title.length > 5
            then (1:ℚ)/20 else 0)
           + (if (fuse_multimodal_data_with_ai c3_t none none c4_w).ingredients ≠ [] ∧
                (fuse_multimodal_data_with_ai c3_t none none c4_w).ingredients.length ≥ 3
              then (1:ℚ)/20 else 0)
           + (if (fuse_multimodal_data_with_ai c3_t none none c4_w).category.getD "" ≠ ""
              then (3:ℚ)/100 else 0)
           + (if (fuse_multimodal_data_with_ai c3_t none none c4_w).cookingTime.getD 0 > 0
              then (1:ℚ)/50 else 0)))
        (19/20)) :=
  ⟨⟨rfl, rfl⟩, c4_amended_text_only_confidence c3_t c4_w rfl 30 rfl⟩


/-! ## Claim C8 — cooking-time bounds -/

/-- A text-extractor world whose classifier call falls back (the offline
default path). -/
def nominal_text_world : TextWorld := { inner := true, catOutcome := none, instructions := "" }

/-- Claim C8 is false on the code: the explicit-pattern branch of
`_extract_cooking_time_advanced` returns `min(value, 240)` with no lower
clamp, so the caption "cook it for 2 minutes" produces a phase-1 PhaseResult
whose cooking time is 2, outside [5, 240]. -/
theorem c8_counterexample :
    (extract_from_text_enhanced "" "cook it for 2 minutes" nominal_text_world).cookingTime
      = some 2 ∧ ¬ (5 ≤ 2) :=
  ⟨by decide, by decide⟩

lemma estimate_cooking_time_bounds (s : String) :
    5 ≤ estimate_cooking_time_from_complexity s ∧
    estimate_cooking_time_from_complexity s ≤ 240 := by
  simp only [estimate_cooking_time_from_complexity]
  generalize (List.foldl _ _ _ : ℤ) = b
  omega

lemma extract_cooking_time_le (text : String) :
    extract_cooking_time_advanced text ≤ 240 := by
  simp only [extract_cooking_time_advanced]
  cases h1 : findNumberUnit ["min"] (strToLower text).data with
  | some v => simp [min_le_right]
  | none =>
    cases h2 : findNumberUnit ["hour", "hr"] (strToLower text).data with
    | some v => simp [min_le_right]
    | none => exact (estimate_cooking_time_bounds text).2

lemma fct_text_bounds (c : FusionContext) (tm : ℕ)
    (h : fallback_cooking_time_text c = some tm) : 5 ≤ tm ∧ tm ≤ 240 := by
  simp only [fallback_cooking_time_text] at h
  rcases hc : c.text.cookingTime with _ | t0 <;> rw [hc] at h
  case none => simp at h
  case some =>
    dsimp only at h
    split_ifs at h with hg
    injection h with h
    subst h
    exact hg

lemma fct_audio_bounds (c : FusionContext) (tm : ℕ)
    (h : fallback_cooking_time_audio c = some tm) : 5 ≤ tm ∧ tm ≤ 240 := by
  simp only [fallback_cooking_time_audio] at h
  rcases ha : c.audio with _ | a <;> rw [ha] at h
  case none => simp at h
  case some =>
    dsimp only at h
    split_ifs at h with h1 h2
    injection h with h
    subst h
    have h5 : (5:ℤ) ≤ ⌊a.cookingTimes.sum / (a.cookingTimes.length : ℚ)⌋ :=
      Int.le_floor.mpr (by exact_mod_cast h2.1)
    have h240 : ⌊a.cookingTimes.sum / (a.cookingTimes.length : ℚ)⌋ ≤ 240 := by
      calc ⌊a.cookingTimes.sum / (a.cookingTimes.length : ℚ)⌋ ≤ ⌊(240:ℚ)⌋ :=
            Int.floor_le_floor h2.2
        _ = 240 := by norm_num
    omega

lemma fct_default_bounds (c : FusionContext) :
    5 ≤ fallback_cooking_time_default c ∧ fallback_cooking_time_default c ≤ 240 := by
  simp only [fallback_cooking_time_default]
  split_ifs <;> omega

lemma fallback_cooking_time_bounds (c : FusionContext) :
    5 ≤ fallback_cooking_time c ∧ fallback_cooking_time c ≤ 240 := by
  simp only [fallback_cooking_time]
  rcases h1 : fallback_cooking_time_text c with _ | tm
  case none =>
    rcases h2 : fallback_cooking_time_audio c with _ | tm
    case none => exact fct_default_bounds c
    case some => exact fct_audio_bounds c tm h2
  case some => exact fct_text_bounds c tm h1

lemma fuse_cookingTime_le (t : TextResult) (a : Option AudioLike)
    (v : Option VisualResult) (w : FuseWorld)
    (h : ∀ ct, t.cookingTime = some ct → ct ≤ 240) :
    (fuse_multimodal_data_with_ai t a v w).cookingTime.getD 0 ≤ 240 := by
  have hfb : (fallback_fusion t).cookingTime.getD 0 ≤ 240 := by
    simp only [fallback_fusion]
    rcases hc : t.cookingTime with _ | ct
    case none => simp
    case some => simpa using h ct hc
  simp only [fuse_multimodal_data_with_ai]
  split
  · exact hfb
  · split
    · exact hfb
    · dsimp only
      rw [Option.getD_some]
      rcases hc : t.cookingTime with _ | ct
      case none => exact (fallback_cooking_time_bounds _).2
      case some =>
        rcases w.aiTime with _ | n
        case none => exact (fallback_cooking_time_bounds _).2
        case some =>
          dsimp only
          split_ifs with hn
          · exact hn.2
          · exact (fallback_cooking_time_bounds _).2

/-- Claim C8 as amended: in every run, the cooking time of the phase-1
PhaseResult and of the FusedRecipe, when present, is at most 240; the lower
bound 5 holds on the complexity-estimation and fusion fallback paths, but an
explicit sub-5-minute mention in the text is returned as-is, so values below
5 can occur (see the counterexample). -/
theorem c8_amended_upper_bound (url : String) (thumb : Option String)
    (desc cap : String) (vid : Option String) (w : World) :
    (pipeline_text desc cap w).cookingTime.getD 0 ≤ 240 ∧
    (pipeline_fused url thumb desc cap vid w).cookingTime.getD 0 ≤ 240 := by
  have htext : ∀ ct, (pipeline_text desc cap w).cookingTime = some ct → ct ≤ 240 := by
    intro ct hc
    simp only [pipeline_text, extract_from_text_enhanced] at hc
    split_ifs at hc
    simp only [Option.some.injEq] at hc
    subst hc
    exact extract_cooking_time_le _
  constructor
  · rcases hc : (pipeline_text desc cap w).cookingTime with _ | ct
    case none => simp
    case some => simpa using htext ct hc
  · exact fuse_cookingTime_le _ _ _ _ htext

/-! ## Claim C2 — progress monotonicity -/

/-- A world in which every external call succeeds and every per-field AI call
falls back to the rule-based path (the offline mode). -/
def nominal_world : World :=
  { textW := nominal_text_world
    visualInner := true, visualValue := { visualIngredients := ["tomato"], confidence := 1/2 }
    thumbInner := true, thumbValue := { visualIngredients := [], confidence := 1/2 }
    audioInner := true, audioValue := { transcription := "add salt", confidence := 4/5 }
    audioWrapInner := true, audioCookingTimes := []
    fuseW := { inner := true, aiTitle := none, aiCategory := none, aiDifficulty := none,
               aiTime := none, aiIngredients := none, audioMined := [] }
    mistralOk := true
    mistralRecipe := { recipe_name := "Pasta", category := "Main Course", total_minutes := 20,
                       ingredients := [], instructions := [], difficulty := "Easy" } }

/-- Whether a progress sequence is non-decreasing. -/
def progress_nondecreasing : List ℕ → Bool
  | [] => true
  | [_] => true
  | a :: b :: t => a ≤ b && progress_nondecreasing (b :: t)

/-- Claim C2 fails on the code (code bug): on any run with a non-empty
Instagram URL the emitted progress sequence is 25, 25, 40, 65, 75, 85, 100,
90, 95, 100 — the phase-4 "processing" event carries progress 100 and the
phase-4 "completed" event drops back to 90, so the sequence is not
non-decreasing (while the final event does carry progress 100 with status
completed, as the claim states). -/
theorem c2_progress_sequence_not_monotonic :
    ((extract_progressive "https://www.instagram.com/reel/abc/" none "A tasty dish"
        "tomato pasta" (some "https://www.instagram.com/reel/abc/") nominal_world).map
      Event.progress = [25, 25, 40, 65, 75, 85, 100, 90, 95, 100]) ∧
    progress_nondecreasing [25, 25, 40, 65, 75, 85, 100, 90, 95, 100] = false ∧
    ((extract_progressive "https://www.instagram.com/reel/abc/" none "A tasty dish"
        "tomato pasta" (some "https://www.instagram.com/reel/abc/") nominal_world).getLast?.map
      Event.status = some "completed") ∧
    ((extract_progressive "https://www.instagram.com/reel/abc/" none "A tasty dish"
        "tomato pasta" (some "https://www.instagram.com/reel/abc/") nominal_world).getLast?.map
      Event.progress = some 100) :=
  ⟨by decide, by decide, by decide, by decide⟩

/-! ## Claim C5 — which phases execute -/

/-- A request with both optional analyses disabled. -/
def c5_req : MultiModalExtractionRequest :=
  { instagram_url := "https://www.instagram.com/p/abc/"
    enable_visual_analysis := false, enable_audio_transcription := false }

/-- Metadata with no thumbnail. -/
def c5_meta : InstagramMetadata :=
  { thumbnailUrl := none, description := "dal", title := "tadka" }

/-- Claim C5 is false on the code: with visual analysis and audio
transcription both disabled (and no thumbnail), the claim says neither
optional phase executes, but `extract_progressive` selects the phase-2 and
phase-3 branches on `if instagram_url:` alone, so both phases emit events on
every request with a non-empty Instagram URL. -/
theorem c5_counterexample :
    c5_req.enable_visual_analysis = false ∧
    c5_req.enable_audio_transcription = false ∧
    ((generate_extraction_stream c5_req c5_meta nominal_world).any
      (fun e => e.phase == some 2)) = true ∧
    ((generate_extraction_stream c5_req c5_meta nominal_world).any
      (fun e => e.phase == some 3)) = true :=
  ⟨rfl, rfl, by decide, by decide⟩

/-- Claim C5 as amended: the visual phase executes iff the Instagram URL is
non-empty, or visual analysis is enabled and a (truthy) thumbnail resolved;
the audio phase executes iff the Instagram URL is non-empty (the `video_url`
fallback branch is reachable only with a non-empty URL, since the API wires
`video_url = instagram_url if enable_audio_transcription else None`).  The
enable flags gate only which fallback inputs are wired and which phase
results are later passed to fusion, not phase execution. -/
theorem c5_amended_phase_occurrence (req : MultiModalExtractionRequest)
    (meta : InstagramMetadata) (w : World) :
    ((generate_extraction_stream req meta w).any (fun e => e.phase == some 2) = true ↔
      (req.instagram_url ≠ "" ∨
        (req.enable_visual_analysis = true ∧ truthy meta.thumbnailUrl = true))) ∧
    ((generate_extraction_stream req meta w).any (fun e => e.phase == some 3) = true ↔
      req.instagram_url ≠ "") := by
  unfold generate_extraction_stream extract_progressive
  by_cases hu : req.instagram_url = "" <;> by_cases hv : req.enable_visual_analysis <;>
    by_cases ha : req.enable_audio_transcription <;>
      by_cases ht : meta.thumbnailUrl.getD "" = "" <;>
        simp [hu, hv, ha, ht, truthy]

/-! ## Claim C6 — batch mode versus the terminal event -/

/-- Whether an event payload is a phase-4 fusion dictionary. -/
def EventData.isFused : EventData → Bool
  | .fused _ => true
  | _ => false

/-- Whether an event payload is a phase-5 Mistral result envelope. -/
def EventData.isMistral : EventData → Bool
  | .mistral _ => true
  | _ => false

/-- A request with both optional analyses enabled. -/
def c6_req : MultiModalExtractionRequest :=
  { instagram_url := "https://www.instagram.com/p/xyz/"
    enable_visual_analysis := true, enable_audio_transcription := true }

/-- Metadata with a thumbnail. -/
def c6_meta : InstagramMetadata :=
  { thumbnailUrl := some "https://cdn.example.com/t.jpg"
    description := "pasta with tomato", title := "cook 10 minutes" }

/-- Claim C6 is false on the code: the batch endpoint keeps the data of the
phase-4 (fusion) completed event, while the terminal event of the same stream
is the phase-5 event carrying the Mistral result envelope — a dictionary of a
different shape — so the batch result is never the recipe carried by the
terminal event. -/
theorem c6_counterexample :
    ((extract_multimodal_batch c6_req c6_meta nominal_world).map EventData.isFused
      = some true) ∧
    (((generate_extraction_stream c6_req c6_meta nominal_world).getLast?.map
        Event.data).map EventData.isFused = some false) ∧
    extract_multimodal_batch c6_req c6_meta nominal_world ≠
      (generate_extraction_stream c6_req c6_meta nominal_world).getLast?.map Event.data := by
  refine ⟨by decide, by decide, fun h => ?_⟩
  have h1 : ((extract_multimodal_batch c6_req c6_meta nominal_world).map EventData.isFused
      = some true) := by decide
  have h2 : (((generate_extraction_stream c6_req c6_meta nominal_world).getLast?.map
        Event.data).map EventData.isFused = some false) := by decide
  rw [h] at h1
  rw [h1] at h2
  exact absurd h2 (by simp)

/-- Claim C6 as amended: the batch mode drains the same event stream fully
but returns the payload of the phase-4 (fusion) completed event, while the
stream's terminal event carries the phase-5 Mistral result; the two payloads
have different dictionary shapes and the terminal recipe is never the one the
batch endpoint returns (it only appears inside the raw
`extraction_phases` list). -/
theorem c6_amended_batch_returns_fusion_payload (req : MultiModalExtractionRequest)
    (meta : InstagramMetadata) (w : World) :
    extract_multimodal_batch req meta w =
      some (EventData.fused (pipeline_fused req.instagram_url
        (if req.enable_visual_analysis then meta.thumbnailUrl else none)
        meta.description meta.title
        (if req.enable_audio_transcription then some req.instagram_url else none) w)) ∧
    (generate_extraction_stream req meta w).getLast?.map Event.data =
      some (EventData.mistral (pipeline_mistral req.instagram_url
        (if req.enable_visual_analysis then meta.thumbnailUrl else none)
        meta.description meta.title
        (if req.enable_audio_transcription then some req.instagram_url else none) w)) := by
  unfold extract_multimodal_batch generate_extraction_stream extract_progressive
  by_cases hu : req.instagram_url = "" <;> by_cases hv : req.enable_visual_analysis <;>
    by_cases ha : req.enable_audio_transcription <;>
      by_cases ht : meta.thumbnailUrl.getD "" = "" <;>
        simp [hu, hv, ha, ht, truthy, List.filter]

/-! ## Claim C7 — refinement failure and the delivered recipe -/

/-- A nominal world whose Mistral call fails. -/
def c7_world : World := { nominal_world with mistralOk := false }

/-- The Instagram URL of the C7 run. -/
def c7_url : String := "https://www.instagram.com/p/q/"

/-- Claim C7 is false on the code: when the refinement pass fails, the
terminal event's payload is `_create_fallback_result` — a generic recipe
envelope with confidence 0.3 — not the FusionEngine's already-computed
result; the delivered recipe is therefore not identical to the fusion
result. -/
theorem c7_counterexample :
    (((extract_progressive c7_url none "tomato pasta" "cook 15 minutes" (some c7_url)
        c7_world).getLast?.map Event.data).map EventData.isMistral = some true) ∧
    (((extract_progressive c7_url none "tomato pasta" "cook 15 minutes" (some c7_url)
        c7_world).getLast?.map Event.data).map EventData.isFused = some false) ∧
    (extract_progressive c7_url none "tomato pasta" "cook 15 minutes" (some c7_url)
        c7_world).getLast?.map Event.data ≠
      some (EventData.fused (pipeline_fused c7_url none "tomato pasta" "cook 15 minutes"
        (some c7_url) c7_world)) := by
  refine ⟨by decide, by decide, fun h => ?_⟩
  have h1 : (((extract_progressive c7_url none "tomato pasta" "cook 15 minutes" (some c7_url)
      c7_world).getLast?.map Event.data).map EventData.isFused = some false) := by decide
  rw [h] at h1
  exact absurd h1 (by simp [EventData.isFused])

/-- Claim C7 as amended: when the refinement pass fails, the terminal event
delivers the Mistral fallback envelope (generic recipe name "Instagram
Recipe", ingredients copied from the fusion result, the audio transcription
as instructions, confidence 0.3); the FusionEngine's own result is left
unmodified but is delivered only in the phase-4 event of the stream, not as
the run's terminal recipe. -/
theorem c7_amended_refinement_failure_payload (url : String) (thumb : Option String)
    (desc cap : String) (vid : Option String) (w : World) (h : w.mistralOk = false) :
    (extract_progressive url thumb desc cap vid w).getLast?.map Event.data =
      some (EventData.mistral (create_fallback_result
        (pipeline_fused url thumb desc cap vid w).ingredients
        ((pipeline_audio_raw url vid (pipeline_text desc cap w) w).map raw_transcription))) ∧
    Event.mk (some 4) "completed" "AI fusion completed, starting final processing..." 90
        (EventData.fused (pipeline_fused url thumb desc cap vid w)) ∈
      extract_progressive url thumb desc cap vid w := by
  unfold extract_progressive
  by_cases hu : url = "" <;> by_cases hth : truthy thumb = true <;>
    by_cases hvd : truthy vid = true <;>
      simp [hu, hth, hvd, pipeline_mistral, h]

theorem c7_amended_witness :
    c7_world.mistralOk = false ∧
    ((extract_progressive "https://www.instagram.com/reel/w7/" none "dal" "tadka"
        none c7_world).getLast?.map Event.data =
      some (EventData.mistral (create_fallback_result
        (pipeline_fused "https://www.instagram.com/reel/w7/" none "dal" "tadka" none c7_world).ingredients
        ((pipeline_audio_raw "https://www.instagram.com/reel/w7/" none
            (pipeline_text "dal" "tadka" c7_world) c7_world).map raw_transcription))) ∧
     Event.mk (some 4) "completed" "AI fusion completed, starting final processing..." 90
        (EventData.fused (pipeline_fused "https://www.instagram.com/reel/w7/" none "dal" "tadka"
          none c7_world)) ∈
      extract_progressive "https://www.instagram.com/reel/w7/" none "dal" "tadka" none c7_world) :=
  ⟨rfl, c7_amended_refinement_failure_payload "https://www.instagram.com/reel/w7/" none "dal"
    "tadka" none c7_world rfl⟩

/-! ## Claim C1 — total degradation still completes via fusion -/

/-- When both the audio and the visual inputs to fusion carry confidence at
most 0.3, `_prepare_fusion_context` drops them and keeps only the text
context. -/
lemma prepare_low_conf (t : TextResult) (a : Option AudioLike) (v : Option VisualResult)
    (ha : (a.map AudioLike.confidence).getD 0 ≤ 3/10)
    (hv : (v.map VisualResult.confidence).getD 0 ≤ 3/10) :
    prepare_fusion_context t a v =
      ⟨⟨t.confidence, t.sourceText, t.ingredients, t.category, t.cookingTime⟩, none, none⟩ := by
  unfold prepare_fusion_context
  rcases a with _ | x <;> rcases v with _ | y <;> simp_all [← not_lt]

/-- A text result produced by the enhanced extractor's success path always
carries a non-empty category, a non-empty difficulty and a cooking time. -/
lemma text_result_degradation_fields (desc cap : String) (tw : TextWorld)
    (h : tw.inner = true) :
    (∃ c0, (extract_from_text_enhanced desc cap tw).category = some c0 ∧ c0 ≠ "") ∧
    (∃ d0, (extract_from_text_enhanced desc cap tw).difficulty = some d0 ∧ d0 ≠ "") ∧
    ((extract_from_text_enhanced desc cap tw).cookingTime).isSome = true := by
  simp only [extract_from_text_enhanced, h, if_true]
  refine ⟨⟨_, rfl, ?_⟩, ⟨_, rfl, determine_difficulty_ne_empty _ _ _⟩, rfl⟩
  rcases tw.catOutcome with _ | ⟨i, s⟩
  · decide
  · exact categories7_get_ne_empty i

/-- Whatever the fusion world does (AI success, AI failure with heuristic
fallbacks, or the TypeError path into `_fallback_fusion`), fusing a text
result with non-empty category/difficulty and a present cooking time against
only low-confidence (or absent) audio and visual inputs yields a recipe with
data sources exactly `["text"]` and non-empty delivered fields. -/
lemma fuse_degraded_facts (t : TextResult) (a : Option AudioLike) (v : Option VisualResult)
    (w : FuseWorld)
    (ha : (a.map AudioLike.confidence).getD 0 ≤ 3/10)
    (hv : (v.map VisualResult.confidence).getD 0 ≤ 3/10)
    (hcat : ∃ c0, t.category = some c0 ∧ c0 ≠ "")
    (hdif : ∃ d0, t.difficulty = some d0 ∧ d0 ≠ "")
    (hct : t.cookingTime.isSome = true) :
    (fuse_multimodal_data_with_ai t a v w).dataSources = ["text"] ∧
    (fuse_multimodal_data_with_ai t a v w).title ≠ "" ∧
    (∃ cat, (fuse_multimodal_data_with_ai t a v w).category = some cat ∧ cat ≠ "") ∧
    (∃ dif, (fuse_multimodal_data_with_ai t a v w).difficulty = some dif ∧ dif ≠ "") ∧
    ((fuse_multimodal_data_with_ai t a v w).cookingTime).isSome = true := by
  simp only [fuse_multimodal_data_with_ai]
  split
  · exact ⟨rfl, (by decide : ("Recipe" : String) ≠ ""), hcat, hdif, hct⟩
  · split
    · exact ⟨rfl, (by decide : ("Recipe" : String) ≠ ""), hcat, hdif, hct⟩
    · rw [prepare_low_conf t a v ha hv]
      refine ⟨by simp, ?_, ⟨_, rfl, ?_⟩, ⟨_, rfl, ?_⟩, rfl⟩
      · rcases w.aiTitle with _ | s
        · exact fallback_title_ne_empty _
        · dsimp only
          split_ifs with hl
          · exact str_ne_empty_of_len s (by omega)
          · exact fallback_title_ne_empty _
      · rcases w.aiCategory with _ | i
        · exact fallback_category_ne_empty _
        · exact categories8_get_ne_empty i
      · rcases w.aiDifficulty with _ | i
        · exact fallback_difficulty_ne_empty _
        · exact difficulties3_get_ne_empty i

/-- A world in which the video processor and the audio transcriber both raise
internally (every other service nominal). -/
def c1_world : World := { nominal_world with visualInner := false, audioInner := false }

/-- Claim C1: with a resolvable source (non-empty Instagram URL) and a
successful text phase, even when both the video processor and the audio
transcriber fail internally the run emits no failed event, terminates with a
completed event at progress 100, passes through the phase-4 fusion event, and
the fused recipe uses only the text source with non-empty title, category and
difficulty and a present cooking time. -/
theorem c1_total_degradation (url : String) (thumb : Option String)
    (desc cap : String) (vid : Option String) (w : World)
    (hurl : url ≠ "") (htext : w.textW.inner = true)
    (hvis : w.visualInner = false) (haud : w.audioInner = false) :
    (∀ e ∈ extract_progressive url thumb desc cap vid w, e.status ≠ "failed") ∧
    ((extract_progressive url thumb desc cap vid w).getLast?.map Event.status =
      some "completed") ∧
    ((extract_progressive url thumb desc cap vid w).getLast?.map Event.progress = some 100) ∧
    Event.mk (some 4) "completed" "AI fusion completed, starting final processing..." 90
        (EventData.fused (pipeline_fused url thumb desc cap vid w)) ∈
      extract_progressive url thumb desc cap vid w ∧
    (pipeline_fused url thumb desc cap vid w).dataSources = ["text"] ∧
    (pipeline_fused url thumb desc cap vid w).title ≠ "" ∧
    (∃ c0, (pipeline_fused url thumb desc cap vid w).category = some c0 ∧ c0 ≠ "") ∧
    (∃ d0, (pipeline_fused url thumb desc cap vid w).difficulty = some d0 ∧ d0 ≠ "") ∧
    ((pipeline_fused url thumb desc cap vid w).cookingTime).isSome = true := by
  have htrans : transcribe_video_audio w = failed_audio_result := by
    simp [transcribe_video_audio, haud]
  have hvisr : process_instagram_video_for_recipe w = empty_visual_result := by
    simp [process_instagram_video_for_recipe, hvis]
  have htr : extract_progressive url thumb desc cap vid w =
      [⟨some 1, "processing", "Reading caption and description...", 25, .missing⟩,
       ⟨some 1, "completed", "Text analysis completed", 25, .text (pipeline_text desc cap w)⟩,
       ⟨some 2, "processing", "Downloading and analyzing Instagram video...", 40, .missing⟩,
       ⟨some 2, "completed", "Instagram video analysis completed", 65,
        .visual empty_visual_result⟩,
       ⟨some 3, "processing", "Extracting and transcribing Instagram audio...", 75, .missing⟩,
       ⟨some 3, "completed", "Instagram audio transcription completed", 85,
        .audioT failed_audio_result⟩,
       ⟨some 4, "processing",
        "AI analyzing all sources for optimal recipe extraction...", 100, .missing⟩,
       ⟨some 4, "completed", "AI fusion completed, starting final processing...", 90,
        .fused (pipeline_fused url thumb desc cap vid w)⟩,
       ⟨some 5, "processing",
        "Mistral AI extracting structured recipe data for 100% accuracy...", 95, .missing⟩,
       ⟨some 5, "completed", "Recipe extraction completed with maximum accuracy", 100,
        .mistral (pipeline_mistral url thumb desc cap vid w)⟩] := by
    simp only [extract_progressive, htrans, hvisr]
    rw [if_pos hurl, if_pos hurl]
    rfl
  have hpf : pipeline_fused url thumb desc cap vid w =
      fuse_multimodal_data_with_ai (pipeline_text desc cap w)
        (if truthy vid then some (audio_ctx_of_raw (.inl failed_audio_result)) else none)
        (if truthy thumb then some empty_visual_result else none) w.fuseW := by
    simp only [pipeline_fused, pipeline_audio_raw, pipeline_visual, htrans, hvisr]
    rw [if_pos hurl, if_pos hurl]
    cases truthy vid <;> cases truthy thumb <;> simp
  have hfields := text_result_degradation_fields desc cap w.textW htext
  have hfacts := fuse_degraded_facts (pipeline_text desc cap w)
      (if truthy vid then some (audio_ctx_of_raw (.inl failed_audio_result)) else none)
      (if truthy thumb then some empty_visual_result else none) w.fuseW
      (by cases truthy vid <;> simp [audio_ctx_of_raw, failed_audio_result] <;> norm_num)
      (by cases truthy thumb <;> simp [empty_visual_result] <;> norm_num)
      hfields.1 hfields.2.1 hfields.2.2
  refine ⟨?_, ?_, ?_, ?_, ?_, ?_, ?_, ?_, ?_⟩
  · rw [htr]
    intro e he
    fin_cases he <;> simp
  · rw [htr]; rfl
  · rw [htr]; rfl
  · rw [htr]; simp
  · rw [hpf]; exact hfacts.1
  · rw [hpf]; exact hfacts.2.1
  · rw [hpf]; exact hfacts.2.2.1
  · rw [hpf]; exact hfacts.2.2.2.1
  · rw [hpf]; exact hfacts.2.2.2.2

theorem c1_witness :
    ("https://www.instagram.com/reel/c1/" ≠ "" ∧ c1_world.textW.inner = true ∧
     c1_world.visualInner = false ∧ c1_world.audioInner = false) ∧
    ((∀ e ∈ extract_progressive "https://www.instagram.com/reel/c1/" none "spicy dal" "tadka"
        none c1_world, e.status ≠ "failed") ∧
     ((extract_progressive "https://www.instagram.com/reel/c1/" none "spicy dal" "tadka"
        none c1_world).getLast?.map Event.status = some "completed") ∧
     ((extract_progressive "https://www.instagram.com/reel/c1/" none "spicy dal" "tadka"
        none c1_world).getLast?.map Event.progress = some 100) ∧
     Event.mk (some 4) "completed" "AI fusion completed, starting final processing..." 90
        (EventData.fused (pipeline_fused "https://www.instagram.com/reel/c1/" none "spicy dal"
          "tadka" none c1_world)) ∈
      extract_progressive "https://www.instagram.com/reel/c1/" none "spicy dal" "tadka"
        none c1_world ∧
     (pipeline_fused "https://www.instagram.com/reel/c1/" none "spicy dal" "tadka"
        none c1_world).dataSources = ["text"] ∧
     (pipeline_fused "https://www.instagram.com/reel/c1/" none "spicy dal" "tadka"
        none c1_world).title ≠ "" ∧
     (∃ c0, (pipeline_fused "https://www.instagram.com/reel/c1/" none "spicy dal" "tadka"
        none c1_world).category = some c0 ∧ c0 ≠ "") ∧
     (∃ d0, (pipeline_fused "https://www.instagram.com/reel/c1/" none "spicy dal" "tadka"
        none c1_world).difficulty = some d0 ∧ d0 ≠ "") ∧
     ((pipeline_fused "https://www.instagram.com/reel/c1/" none "spicy dal" "tadka"
        none c1_world).cookingTime).isSome = true) :=
  ⟨⟨by decide, rfl, rfl, rfl⟩,
   c1_total_degradation "https://www.instagram.com/reel/c1/" none "spicy dal" "tadka" none
     c1_world (by decide) rfl rfl rfl⟩
